import Mathlib

/-!
Verification of the blogicum blog application's view layer
(`blog/views.py`, `blog/forms.py`) against its specification.

The data model (User, Category, Post, Comment) is reconstructed from field
usage in the views and forms; a database state is a list of rows per entity.
Each Django class-based view is embedded as a function from a database
state, the requesting user (`none` for an anonymous request) and the URL
parameters to a response value; mutating views also return the new
database state.  The method-resolution order of each view class determines
the order in which ownership checks, login checks and object lookups run,
and the embeddings below reproduce that order view by view.
-/

namespace Blogicum

/-- A registered user.  Only the fields the views consult are modelled. -/
structure User where
  id : Nat
  username : String
deriving DecidableEq

/-- A post category with its publication flag (`Category.is_published`). -/
structure Category where
  id : Nat
  slug : String
  is_published : Bool
deriving DecidableEq

/-- A blog post.  `pub_date` is a timestamp (integer time axis);
`categoryId`, `locationId` and `authorId` are the foreign keys. -/
structure Post where
  id : Nat
  title : String
  text : String
  pub_date : Int
  categoryId : Nat
  locationId : Option Nat
  image : String
  authorId : Nat
  is_published : Bool
deriving DecidableEq

/-- A comment on a post. -/
structure Comment where
  id : Nat
  text : String
  authorId : Nat
  postId : Nat
deriving DecidableEq

/-- A database state: the rows of the four tables the views touch. -/
structure DB where
  users : List User
  categories : List Category
  posts : List Post
  comments : List Comment
deriving DecidableEq

/-- `get_object_or_404(Post, pk=post_id)`: the first post with the given
primary key, if any. -/
def findPost (db : DB) (postId : Nat) : Option Post :=
  db.posts.find? (fun p => p.id == postId)

/-- `get_object_or_404(Comment, pk=comment_id)`. -/
def findComment (db : DB) (commentId : Nat) : Option Comment :=
  db.comments.find? (fun c => c.id == commentId)

/-- `get_object_or_404(User, username=...)`. -/
def findUserByUsername (db : DB) (username : String) : Option User :=
  db.users.find? (fun u => u.username == username)

/-- The category row a post's `category` foreign key points at. -/
def categoryOf (db : DB) (p : Post) : Option Category :=
  db.categories.find? (fun c => c.id == p.categoryId)

/-- `post.category.is_published`, and the join condition
`category__is_published=True`: a post with no category row never passes. -/
def categoryIsPublished (db : DB) (p : Post) : Bool :=
  match categoryOf db p with
  | some c => c.is_published
  | none => false

/-- The join condition `category__slug=category_slug`. -/
def categoryHasSlug (db : DB) (p : Post) (slug : String) : Bool :=
  match categoryOf db p with
  | some c => c.slug == slug
  | none => false

/-- `Count('comments')`: the number of comments attached to a post. -/
def commentCount (db : DB) (p : Post) : Nat :=
  (db.comments.filter (fun c => c.postId == p.id)).length

/-- `self.object.comments.select_related('author')`: the comments shown on
the detail page. -/
def postComments (db : DB) (p : Post) : List Comment :=
  db.comments.filter (fun c => c.postId == p.id)

/-- Response of the post detail view: a rendered page (HTTP 200) carrying
the post and its comments, or `HttpResponseNotFound` (HTTP 404). -/
inductive DetailResponse where
  | ok (post : Post) (comments : List Comment)
  | notFound
deriving DecidableEq

/-- Response of a create/update/delete view: redirect to the login page
(`LoginRequiredMixin`), redirect to a post's detail page (HTTP 302),
HTTP 404 from a failed lookup, or proceeding to the handler proper. -/
inductive MutResponse where
  | redirectLogin
  | redirectPostDetail (postId : Nat)
  | notFound
  | proceed
deriving DecidableEq

/-- `PostDetailView.dispatch`: look the post up by primary key (404 when
missing); when the post fails the visibility condition
(`is_published`, `category.is_published`, `pub_date <= timezone.now()`),
render it only for its author and answer 404 to everyone else; when it
passes, render it for any requester. -/
def postDetailView (db : DB) (now : Int) (requester : Option Nat)
    (postId : Nat) : DetailResponse :=
  match findPost db postId with
  | none => .notFound
  | some post =>
    if !post.is_published || !categoryIsPublished db post
        || !(decide (post.pub_date ≤ now)) then
      if requester == some post.authorId then
        .ok post (postComments db post)
      else
        .notFound
    else
      .ok post (postComments db post)

/-- The data a bound `PostForm` carries: exactly the fields listed in
`PostForm.Meta.fields`. -/
structure PostFormData where
  title : String
  text : String
  pub_date : Int
  categoryId : Nat
  locationId : Option Nat
  image : String
deriving DecidableEq

/-- Saving a bound `PostForm` against an existing post: the form fields are
overwritten, primary key and author are untouched. -/
def applyPostForm (f : PostFormData) (p : Post) : Post :=
  { p with
    title := f.title
    text := f.text
    pub_date := f.pub_date
    categoryId := f.categoryId
    locationId := f.locationId
    image := f.image }

/-- The data a comment submission carries.  `submittedAuthorId` and
`submittedPostId` stand for client-supplied values for the author and post
fields; `CommentForm.Meta.fields = ('text',)` means only `text` is bound. -/
structure CommentSubmission where
  text : String
  submittedAuthorId : Option Nat
  submittedPostId : Option Nat
deriving DecidableEq

/-- The only field a bound `CommentForm` takes from the submission. -/
def commentFormText (sub : CommentSubmission) : String :=
  sub.text

/-- `PostUpdateView`, bases `(PostMixin, PostDispatchMixin,
LoginRequiredMixin, UpdateView)`: `PostDispatchMixin.dispatch` runs first
(lookup, then ownership check with redirect to the post's detail page),
and only then `LoginRequiredMixin` checks authentication. -/
def postUpdateView (db : DB) (requester : Option Nat) (postId : Nat)
    (form : PostFormData) : MutResponse × DB :=
  match findPost db postId with
  | none => (.notFound, db)
  | some target =>
    if requester != some target.authorId then
      (.redirectPostDetail target.id, db)
    else
      match requester with
      | none => (.redirectLogin, db)
      | some _ =>
        (.proceed,
         { db with
            posts := db.posts.map
              (fun p => if p.id == postId then applyPostForm form p else p) })

/-- `PostDeleteView`, bases `(PostMixin, PostDispatchMixin,
LoginRequiredMixin, DeleteView)`: same dispatch order as the update view;
the author's request deletes the post. -/
def postDeleteView (db : DB) (requester : Option Nat) (postId : Nat) :
    MutResponse × DB :=
  match findPost db postId with
  | none => (.notFound, db)
  | some target =>
    if requester != some target.authorId then
      (.redirectPostDetail target.id, db)
    else
      match requester with
      | none => (.redirectLogin, db)
      | some _ =>
        (.proceed, { db with posts := db.posts.filter (fun p => p.id != postId) })

/-- `PostCreateView`, bases `(PostMixin, LoginRequiredMixin, CreateView)`:
the only dispatch-level check is `LoginRequiredMixin`; an authenticated
requester proceeds to the create form. -/
def postCreateView (requester : Option Nat) : MutResponse :=
  match requester with
  | none => .redirectLogin
  | some _ => .proceed

/-- `CommentCreateView.dispatch` looks the target post up first (404 when
missing), then `LoginRequiredMixin` runs; `form_valid` stamps
`form.instance.author = request.user` and `form.instance.post` to the
URL-specified post, and the bound `CommentForm` supplies only the text. -/
def commentCreateView (db : DB) (requester : Option Nat) (postId : Nat)
    (sub : CommentSubmission) (newId : Nat) : MutResponse × DB :=
  match findPost db postId with
  | none => (.notFound, db)
  | some target =>
    match requester with
    | none => (.redirectLogin, db)
    | some uid =>
      (.proceed,
       { db with comments := db.comments ++
          [{ id := newId
             text := commentFormText sub
             authorId := uid
             postId := target.id }] })

/-- `CommentUpdateView`, bases `(LoginRequiredMixin, CommentMixin,
UpdateView)`: `LoginRequiredMixin` runs first, then
`CommentMixin.dispatch` (lookup, ownership check redirecting to the
comment's post detail page). -/
def commentUpdateView (db : DB) (requester : Option Nat) (commentId : Nat)
    (sub : CommentSubmission) : MutResponse × DB :=
  match requester with
  | none => (.redirectLogin, db)
  | some _ =>
    match findComment db commentId with
    | none => (.notFound, db)
    | some target =>
      if requester != some target.authorId then
        (.redirectPostDetail target.postId, db)
      else
        (.proceed,
         { db with
            comments := db.comments.map
              (fun c =>
                if c.id == commentId then { c with text := commentFormText sub } else c) })

/-- `CommentDeleteView`, bases `(LoginRequiredMixin, CommentMixin,
DeleteView)`: same dispatch order as the comment update view. -/
def commentDeleteView (db : DB) (requester : Option Nat) (commentId : Nat) :
    MutResponse × DB :=
  match requester with
  | none => (.redirectLogin, db)
  | some _ =>
    match findComment db commentId with
    | none => (.notFound, db)
    | some target =>
      if requester != some target.authorId then
        (.redirectPostDetail target.postId, db)
      else
        (.proceed, { db with comments := db.comments.filter (fun c => c.id != commentId) })

/-- `POSTS_PER_PAGE = 10`. -/
def POSTS_PER_PAGE : Nat := 10

/-- The ordering used by `order_by('-pub_date')`: `a` may precede `b`
when `b.pub_date ≤ a.pub_date`. -/
def pubDateGE (a b : Post) : Prop := b.pub_date ≤ a.pub_date

instance : DecidableRel pubDateGE := fun a b =>
  inferInstanceAs (Decidable (b.pub_date ≤ a.pub_date))

instance : IsTotal Post pubDateGE := ⟨fun a b => le_total b.pub_date a.pub_date⟩

instance : IsTrans Post pubDateGE := ⟨fun _ _ _ hab hbc => le_trans hbc hab⟩

/-- `order_by('-pub_date')`: sort by publication date, newest first. -/
def sortByPubDateDesc (ps : List Post) : List Post :=
  List.insertionSort pubDateGE ps

/-- An entry of a listing page: the post, and the value of the
`comment_count` attribute when the queryset was annotated with one. -/
structure ListedPost where
  post : Post
  comment_count : Option Nat
deriving DecidableEq

/-- `IndexListView.queryset`: filter on `pub_date__lte=today`,
`is_published=True`, `category__is_published=True` — where `today` is the
`timezone.now()` captured once when the class body was evaluated
(`loadTime`), not the request time — then `order_by('-pub_date')` and
`annotate(comment_count=Count('comments'))`. -/
def indexQueryset (db : DB) (loadTime : Int) : List ListedPost :=
  (sortByPubDateDesc (db.posts.filter (fun p =>
    decide (p.pub_date ≤ loadTime) && p.is_published
      && categoryIsPublished db p))).map
    (fun p => { post := p, comment_count := some (commentCount db p) })

/-- `CategoryPostsListView.get_queryset`: filter on
`category__slug=category_slug`, `is_published=True`, `pub_date__lte=today`
with `today = timezone.now()` taken at request time, then
`order_by('-pub_date')`.  No comment-count annotation. -/
def categoryQueryset (db : DB) (slug : String) (now : Int) : List ListedPost :=
  (sortByPubDateDesc (db.posts.filter (fun p =>
    categoryHasSlug db p slug && p.is_published
      && decide (p.pub_date ≤ now)))).map
    (fun p => { post := p, comment_count := none })

/-- `UserDetailView.get_context_data`'s `post_list`:
`profile.posts.all().order_by('-pub_date').annotate(comment_count=...)`.
No visibility filter of any kind. -/
def profilePostList (db : DB) (userId : Nat) : List ListedPost :=
  (sortByPubDateDesc (db.posts.filter (fun p => p.authorId == userId))).map
    (fun p => { post := p, comment_count := some (commentCount db p) })

/-- The slice of a listing shown on page `page` (1-based), at
`POSTS_PER_PAGE` items per page. -/
def getPage (l : List ListedPost) (page : Nat) : List ListedPost :=
  (l.drop ((page - 1) * POSTS_PER_PAGE)).take POSTS_PER_PAGE

/-- `Paginator.num_pages`: `ceil(count / per_page)`, and at least 1. -/
def numPages (count : Nat) : Nat :=
  max 1 ((count + POSTS_PER_PAGE - 1) / POSTS_PER_PAGE)

/-- The total number of items over all pages of a listing. -/
def pagesTotal (l : List ListedPost) : Nat :=
  ((List.range (numPages l.length)).map (fun i => (getPage l (i + 1)).length)).sum

/-- Response of a listing view: a rendered page of entries, or 404. -/
inductive ListResponse where
  | ok (page : List ListedPost)
  | notFound
deriving DecidableEq

/-- `IndexListView`: always renders a page of its class-level queryset.
The requester is never consulted. -/
def indexView (db : DB) (loadTime : Int) (requester : Option Nat)
    (page : Nat) : ListResponse :=
  .ok (getPage (indexQueryset db loadTime) page)

/-- `CategoryPostsListView`: builds the post queryset, then
`get_context_data` does `get_object_or_404(Category, slug=...,
is_published=True)`, which turns the whole request into a 404 whenever no
published category bears the slug.  The requester is never consulted. -/
def categoryView (db : DB) (slug : String) (now : Int)
    (requester : Option Nat) (page : Nat) : ListResponse :=
  match db.categories.find? (fun c => c.slug == slug && c.is_published) with
  | none => .notFound
  | some _ => .ok (getPage (categoryQueryset db slug now) page)

/-- `UserDetailView`: look the profile user up by username (404 when
missing) and render a page of all their posts.  The requester is only put
into the template context, never used to filter. -/
def profileView (db : DB) (username : String) (requester : Option Nat)
    (page : Nat) : ListResponse :=
  match findUserByUsername db username with
  | none => .notFound
  | some u => .ok (getPage (profilePostList db u.id) page)

/-- The visibility condition of the spec: published flag, category
published flag, publication date at or before `now`. -/
def visibleAt (db : DB) (now : Int) (p : Post) : Prop :=
  p.is_published = true ∧ categoryIsPublished db p = true ∧ p.pub_date ≤ now

instance (db : DB) (now : Int) (p : Post) : Decidable (visibleAt db now p) := by
  unfold visibleAt
  infer_instance

/-- Category slugs identify categories uniquely (the slug field is the
lookup key of the category page). -/
def slugUnique (db : DB) : Prop :=
  ∀ c1 ∈ db.categories, ∀ c2 ∈ db.categories, c1.slug = c2.slug → c1 = c2

instance (db : DB) : Decidable (slugUnique db) := by
  unfold slugUnique
  infer_instance

/-- Listing entries sorted by publication date, newest first. -/
def sortedDesc (l : List ListedPost) : Prop :=
  l.Pairwise (fun a b => b.post.pub_date ≤ a.post.pub_date)

/-! Concrete fixtures used by witness theorems. -/

/-- A published category. -/
def wCat : Category := { id := 1, slug := "news", is_published := true }

/-- An unpublished category. -/
def wCatHidden : Category := { id := 2, slug := "drafts", is_published := false }

/-- A published post by user 5 in the published category. -/
def wPost : Post :=
  { id := 1, title := "t1", text := "b1", pub_date := 3, categoryId := 1,
    locationId := none, image := "", authorId := 5, is_published := true }

/-- An unpublished post by user 5. -/
def wPostDraft : Post :=
  { id := 2, title := "t2", text := "b2", pub_date := 4, categoryId := 1,
    locationId := none, image := "", authorId := 5, is_published := false }

/-- A comment by user 6 on post 1. -/
def wComment : Comment := { id := 1, text := "hi", authorId := 6, postId := 1 }

/-- A small database: two users, two categories, two posts, one comment. -/
def wDB : DB :=
  { users := [{ id := 5, username := "bob" }, { id := 6, username := "eve" }],
    categories := [wCat, wCatHidden],
    posts := [wPost, wPostDraft],
    comments := [wComment] }

/-- A published post dated 5: after the class-load time 3 used in the C9
witness, before the request moment 10. -/
def wPostFuture : Post :=
  { id := 3, title := "t3", text := "b3", pub_date := 5, categoryId := 1,
    locationId := none, image := "", authorId := 5, is_published := true }

/-- The small database extended with `wPostFuture`. -/
def wDBFuture : DB :=
  { users := [{ id := 5, username := "bob" }, { id := 6, username := "eve" }],
    categories := [wCat, wCatHidden],
    posts := [wPost, wPostDraft, wPostFuture],
    comments := [wComment] }

/-- A concrete post form submission. -/
def wForm : PostFormData :=
  { title := "t9", text := "b9", pub_date := 7, categoryId := 1,
    locationId := none, image := "" }

/-- A concrete comment submission carrying forged author and post values. -/
def wSub : CommentSubmission :=
  { text := "c9", submittedAuthorId := some 9, submittedPostId := some 9 }

/-! ## Helper lemmas -/

/-- An entry shown on some page belongs to the listing. -/
theorem mem_of_mem_getPage {l : List ListedPost} {page : Nat} {e : ListedPost}
    (h : e ∈ getPage l page) : e ∈ l :=
  List.mem_of_mem_drop (List.mem_of_mem_take h)

/-- When the published-category lookup of the category page succeeds and
slugs are unique, every post whose category bears the slug has a
published category. -/
theorem categoryIsPublished_of_slug (db : DB) (q : Post) (slug : String)
    (cat : Category)
    (hfind : db.categories.find? (fun c => c.slug == slug && c.is_published)
      = some cat)
    (huniq : slugUnique db)
    (hslug : categoryHasSlug db q slug = true) :
    categoryIsPublished db q = true := by
  rcases hcq : categoryOf db q with _ | cc
  · rw [categoryHasSlug, hcq] at hslug
    exact absurd hslug (by simp)
  · have hccmem : cc ∈ db.categories := List.mem_of_find?_eq_some hcq
    have hccslug : cc.slug = slug := by
      rw [categoryHasSlug, hcq] at hslug
      simpa using hslug
    have hcatmem : cat ∈ db.categories := List.mem_of_find?_eq_some hfind
    have hcat := List.find?_some hfind
    simp only [Bool.and_eq_true, beq_iff_eq] at hcat
    have hcc : cc = cat := huniq cc hccmem cat hcatmem (by rw [hccslug, hcat.1])
    rw [categoryIsPublished, hcq, hcc]
    exact hcat.2

/-- Mapping an annotation function that keeps the post over a
pub-date-sorted list yields a pub-date-sorted listing. -/
theorem sortedDesc_map_sort (f : Post → ListedPost) (hf : ∀ p, (f p).post = p)
    (l : List Post) : sortedDesc ((sortByPubDateDesc l).map f) := by
  unfold sortedDesc sortByPubDateDesc
  rw [List.pairwise_map]
  have hs := List.sorted_insertionSort pubDateGE l
  exact List.Pairwise.imp (fun hab => by
    rename_i a b
    rw [hf a, hf b]
    exact hab) hs

/-- Each page slice holds at most `POSTS_PER_PAGE` entries. -/
theorem getPage_length_le (l : List ListedPost) (page : Nat) :
    (getPage l page).length ≤ POSTS_PER_PAGE :=
  List.length_take_le _ _

/-- The first `k` pages together hold `min (k * POSTS_PER_PAGE)` of the
listing's entries. -/
theorem sum_pages_take (l : List ListedPost) (k : Nat) :
    ((List.range k).map (fun i => (getPage l (i + 1)).length)).sum
      = min (k * POSTS_PER_PAGE) l.length := by
  induction k with
  | zero => simp
  | succ k ih =>
    rw [List.range_succ, List.map_append, List.sum_append]
    simp only [List.map_cons, List.map_nil, List.sum_cons, List.sum_nil]
    rw [ih]
    have h1 : (getPage l (k + 1)).length
        = min POSTS_PER_PAGE (l.length - k * POSTS_PER_PAGE) := by
      simp [getPage]
    rw [h1]
    have hp : POSTS_PER_PAGE = 10 := rfl
    rw [hp]
    omega

/-- Summed over all pages, a listing's pages hold exactly its entries. -/
theorem pagesTotal_eq (l : List ListedPost) : pagesTotal l = l.length := by
  unfold pagesTotal
  rw [sum_pages_take]
  have hp : POSTS_PER_PAGE = 10 := rfl
  unfold numPages
  rw [hp]
  omega

/-! ## The claims -/

/-- The boolean guard of `PostDetailView.dispatch` is the negation of the
visibility condition. -/
theorem detail_guard_iff (db : DB) (now : Int) (p : Post) :
    (!p.is_published || !categoryIsPublished db p
      || !(decide (p.pub_date ≤ now))) = false ↔ visibleAt db now p := by
  simp [visibleAt, and_assoc]

/-- C1: a post failing the visibility condition answers 404 to every
requester other than its author and renders normally for the author; a
post satisfying it renders normally for every requester. -/
theorem post_detail_visibility (db : DB) (now : Int) (postId : Nat) (p : Post)
    (hp : findPost db postId = some p) :
    (¬ visibleAt db now p →
      (∀ requester : Option Nat, requester ≠ some p.authorId →
        postDetailView db now requester postId = .notFound) ∧
      postDetailView db now (some p.authorId) postId = .ok p (postComments db p)) ∧
    (visibleAt db now p →
      ∀ requester : Option Nat,
        postDetailView db now requester postId = .ok p (postComments db p)) := by
  simp only [postDetailView, hp]
  by_cases hv : visibleAt db now p
  · rw [((detail_guard_iff db now p).mpr hv)]
    simp [hv]
  · have hcond : (!p.is_published || !categoryIsPublished db p
        || !(decide (p.pub_date ≤ now))) = true := by
      rcases hb : (!p.is_published || !categoryIsPublished db p
        || !(decide (p.pub_date ≤ now))) with _ | _
      · exact absurd ((detail_guard_iff db now p).mp hb) hv
      · rfl
    rw [hcond]
    refine ⟨fun _ => ⟨fun requester hne => ?_, by simp⟩, fun h => absurd h hv⟩
    have hbeq : (requester == some p.authorId) = false := by
      simpa using hne
    simp [hbeq]

/-- Witness for C1 at a concrete database and post. -/
theorem post_detail_visibility_witness :
    findPost wDB 1 = some wPost ∧
    ((¬ visibleAt wDB 10 wPost →
      (∀ requester : Option Nat, requester ≠ some wPost.authorId →
        postDetailView wDB 10 requester 1 = .notFound) ∧
      postDetailView wDB 10 (some wPost.authorId) 1 = .ok wPost (postComments wDB wPost)) ∧
    (visibleAt wDB 10 wPost →
      ∀ requester : Option Nat,
        postDetailView wDB 10 requester 1 = .ok wPost (postComments wDB wPost))) :=
  ⟨by decide, post_detail_visibility wDB 10 1 wPost (by decide)⟩

/-- C2: an authenticated non-author's update or delete request for an
existing post or comment is answered with a redirect to that post's detail
page and leaves the database unchanged; the author's request proceeds. -/
theorem owner_only_mutation (db : DB) (uid postId commentId : Nat)
    (p : Post) (c : Comment)
    (hp : findPost db postId = some p)
    (hc : findComment db commentId = some c)
    (form : PostFormData) (sub : CommentSubmission) :
    (uid ≠ p.authorId →
      postUpdateView db (some uid) postId form = (.redirectPostDetail p.id, db) ∧
      postDeleteView db (some uid) postId = (.redirectPostDetail p.id, db)) ∧
    (postUpdateView db (some p.authorId) postId form).1 = .proceed ∧
    (postDeleteView db (some p.authorId) postId).1 = .proceed ∧
    (uid ≠ c.authorId →
      commentUpdateView db (some uid) commentId sub = (.redirectPostDetail c.postId, db) ∧
      commentDeleteView db (some uid) commentId = (.redirectPostDetail c.postId, db)) ∧
    (commentUpdateView db (some c.authorId) commentId sub).1 = .proceed ∧
    (commentDeleteView db (some c.authorId) commentId).1 = .proceed := by
  refine ⟨fun hne => ⟨?_, ?_⟩, ?_, ?_, fun hne => ⟨?_, ?_⟩, ?_, ?_⟩ <;>
    simp_all [postUpdateView, postDeleteView, commentUpdateView, commentDeleteView]

/-- Witness for C2: user 7 is neither post 1's author (5) nor comment 1's
author (6). -/
theorem owner_only_mutation_witness :
    findPost wDB 1 = some wPost ∧ findComment wDB 1 = some wComment ∧
    ((7 ≠ wPost.authorId →
      postUpdateView wDB (some 7) 1 wForm = (.redirectPostDetail wPost.id, wDB) ∧
      postDeleteView wDB (some 7) 1 = (.redirectPostDetail wPost.id, wDB)) ∧
    (postUpdateView wDB (some wPost.authorId) 1 wForm).1 = .proceed ∧
    (postDeleteView wDB (some wPost.authorId) 1).1 = .proceed ∧
    (7 ≠ wComment.authorId →
      commentUpdateView wDB (some 7) 1 wSub = (.redirectPostDetail wComment.postId, wDB) ∧
      commentDeleteView wDB (some 7) 1 = (.redirectPostDetail wComment.postId, wDB)) ∧
    (commentUpdateView wDB (some wComment.authorId) 1 wSub).1 = .proceed ∧
    (commentDeleteView wDB (some wComment.authorId) 1).1 = .proceed) :=
  ⟨by decide, by decide,
   owner_only_mutation wDB 7 1 1 wPost wComment (by decide) (by decide) wForm wSub⟩

/-- C3 counterexample: an anonymous update or delete request for existing
post 1 is redirected to the post's detail page, not to the login page:
`PostDispatchMixin.dispatch` runs before `LoginRequiredMixin`. -/
theorem anonymous_post_update_counterexample :
    (postUpdateView wDB none 1 wForm).1 = .redirectPostDetail 1 ∧
    ¬ (postUpdateView wDB none 1 wForm).1 = .redirectLogin ∧
    (postDeleteView wDB none 1).1 = .redirectPostDetail 1 ∧
    ¬ (postDeleteView wDB none 1).1 = .redirectLogin := by
  decide

/-- C3 (amended): anonymous requests to the post create view and to the
comment create (against an existing post), comment update and comment
delete views are redirected to login; anonymous update or delete requests
for an existing post are instead redirected to that post's detail page,
because the ownership check precedes the login check in those two views.
No mutation is performed in any of these cases. -/
theorem anonymous_requests (db : DB) (postId commentId newId : Nat)
    (p : Post) (hp : findPost db postId = some p)
    (form : PostFormData) (sub : CommentSubmission) :
    postCreateView none = .redirectLogin ∧
    commentCreateView db none postId sub newId = (.redirectLogin, db) ∧
    commentUpdateView db none commentId sub = (.redirectLogin, db) ∧
    commentDeleteView db none commentId = (.redirectLogin, db) ∧
    postUpdateView db none postId form = (.redirectPostDetail p.id, db) ∧
    postDeleteView db none postId = (.redirectPostDetail p.id, db) := by
  refine ⟨rfl, ?_, rfl, rfl, ?_, ?_⟩ <;>
    simp [commentCreateView, postUpdateView, postDeleteView, hp]

/-- Witness for the amended C3 at the concrete database. -/
theorem anonymous_requests_witness :
    findPost wDB 1 = some wPost ∧
    (postCreateView none = .redirectLogin ∧
    commentCreateView wDB none 1 wSub 9 = (.redirectLogin, wDB) ∧
    commentUpdateView wDB none 1 wSub = (.redirectLogin, wDB) ∧
    commentDeleteView wDB none 1 = (.redirectLogin, wDB) ∧
    postUpdateView wDB none 1 wForm = (.redirectPostDetail wPost.id, wDB) ∧
    postDeleteView wDB none 1 = (.redirectPostDetail wPost.id, wDB)) :=
  ⟨by decide, anonymous_requests wDB 1 1 9 wPost (by decide) wForm wSub⟩

/-- C4: a comment created by an authenticated user against an existing
post carries the requesting user as author and the URL-specified post as
parent, and takes only the text from the submission, whatever author or
post values the submission carried. -/
theorem comment_create_stamps (db : DB) (uid postId newId : Nat)
    (sub : CommentSubmission) (p : Post) (hp : findPost db postId = some p) :
    p.id = postId ∧
    (commentCreateView db (some uid) postId sub newId).1 = .proceed ∧
    (commentCreateView db (some uid) postId sub newId).2.comments =
      db.comments ++
        [{ id := newId, text := sub.text, authorId := uid, postId := p.id }] := by
  refine ⟨?_, ?_, ?_⟩
  · have := List.find?_some hp
    simpa using this
  · simp [commentCreateView, hp]
  · simp [commentCreateView, hp, commentFormText]

/-- Witness for C4: the submission `wSub` forges author 9 and post 9, yet
the stored comment carries author 6 and post 1. -/
theorem comment_create_stamps_witness :
    findPost wDB 1 = some wPost ∧
    (wPost.id = 1 ∧
    (commentCreateView wDB (some 6) 1 wSub 3).1 = .proceed ∧
    (commentCreateView wDB (some 6) 1 wSub 3).2.comments =
      wDB.comments ++
        [{ id := 3, text := wSub.text, authorId := 6, postId := wPost.id }]) :=
  ⟨by decide, comment_create_stamps wDB 6 1 3 wSub wPost (by decide)⟩

/-- C8: the profile page lists every post of the profile's user — with no
visibility filtering — and its response does not depend on who requests
it. -/
theorem profile_lists_all (db : DB) (username : String) (u : User)
    (hu : findUserByUsername db username = some u) :
    (∀ p ∈ db.posts, p.authorId = u.id →
      ∃ e ∈ profilePostList db u.id, e.post = p) ∧
    (∀ requester1 requester2 : Option Nat, ∀ page,
      profileView db username requester1 page =
        profileView db username requester2 page) := by
  constructor
  · intro p hmem hauthor
    refine ⟨{ post := p, comment_count := some (commentCount db p) }, ?_, rfl⟩
    simp only [profilePostList, sortByPubDateDesc]
    apply List.mem_map_of_mem
    rw [List.mem_insertionSort, List.mem_filter]
    exact ⟨hmem, by simp [hauthor]⟩
  · intro requester1 requester2 page
    rfl

/-- Witness for C8: `wPostDraft` is unpublished yet listed on bob's
profile. -/
theorem profile_lists_all_witness :
    findUserByUsername wDB "bob" = some { id := 5, username := "bob" } ∧
    ((∀ p ∈ wDB.posts, p.authorId = 5 →
      ∃ e ∈ profilePostList wDB 5, e.post = p) ∧
    (∀ requester1 requester2 : Option Nat, ∀ page,
      profileView wDB "bob" requester1 page =
        profileView wDB "bob" requester2 page)) :=
  ⟨by decide, profile_lists_all wDB "bob" { id := 5, username := "bob" } (by decide)⟩

/-- C9: the index cutoff is the timestamp captured at class definition:
a post dated after `loadTime` is absent from the index queryset and from
every index page, even when its date is before the request moment and all
other visibility conditions hold. -/
theorem index_cutoff_is_class_load_time (db : DB) (loadTime now : Int) (p : Post)
    (hmem : p ∈ db.posts) (hafter : loadTime < p.pub_date)
    (hnow : p.pub_date ≤ now) (hpub : p.is_published = true)
    (hcat : categoryIsPublished db p = true) :
    (∀ e ∈ indexQueryset db loadTime, e.post ≠ p) ∧
    (∀ page : Nat, ∀ e ∈ getPage (indexQueryset db loadTime) page, e.post ≠ p) := by
  have hq : ∀ e ∈ indexQueryset db loadTime, e.post ≠ p := by
    intro e he heq
    simp only [indexQueryset, sortByPubDateDesc] at he
    obtain ⟨q, hqmem, rfl⟩ := List.mem_map.mp he
    rw [List.mem_insertionSort, List.mem_filter] at hqmem
    have hle : q.pub_date ≤ loadTime := by
      have := hqmem.2
      simp only [Bool.and_eq_true, decide_eq_true_eq] at this
      exact this.1.1
    have : q = p := heq
    subst this
    omega
  exact ⟨hq, fun page e he =>
    hq e (List.mem_of_mem_drop (List.mem_of_mem_take he))⟩

/-- Witness for C9: `wFuture` is publishable in every other respect and
dated before the request moment 10, yet absent from the index built at
load time 3. -/
theorem index_cutoff_witness :
    wPostFuture ∈ wDBFuture.posts ∧ (3 : Int) < wPostFuture.pub_date ∧
    wPostFuture.pub_date ≤ 10 ∧ wPostFuture.is_published = true ∧
    categoryIsPublished wDBFuture wPostFuture = true ∧
    ((∀ e ∈ indexQueryset wDBFuture 3, e.post ≠ wPostFuture) ∧
    (∀ page : Nat, ∀ e ∈ getPage (indexQueryset wDBFuture 3) page,
      e.post ≠ wPostFuture)) :=
  ⟨by decide, by decide, by decide, by decide, by decide,
   index_cutoff_is_class_load_time wDBFuture 3 10 wPostFuture
     (by decide) (by decide) (by decide) (by decide) (by decide)⟩

/-- C10: when the category bearing a slug is unpublished, the category
page answers 404 to every requester, whatever the post queryset holds. -/
theorem unpublished_category_not_found (db : DB) (slug : String) (cat : Category)
    (hmem : cat ∈ db.categories) (hslug : cat.slug = slug)
    (hunpub : cat.is_published = false) (huniq : slugUnique db)
    (now : Int) (requester : Option Nat) (page : Nat) :
    categoryView db slug now requester page = .notFound := by
  have hfind : db.categories.find? (fun c => c.slug == slug && c.is_published)
      = none := by
    rw [List.find?_eq_none]
    intro c hcmem hcond
    simp only [Bool.and_eq_true, beq_iff_eq] at hcond
    have : c = cat := huniq c hcmem cat hmem (by rw [hcond.1, hslug])
    rw [this, hunpub] at hcond
    exact Bool.false_ne_true hcond.2
  simp [categoryView, hfind]

/-- Witness for C10: the category with slug "drafts" is unpublished, so
its page is a 404 even for the post author. -/
theorem unpublished_category_not_found_witness :
    wCatHidden ∈ wDB.categories ∧ wCatHidden.slug = "drafts" ∧
    wCatHidden.is_published = false ∧ slugUnique wDB ∧
    categoryView wDB "drafts" 10 (some 5) 1 = .notFound :=
  ⟨by decide, by decide, by decide, by decide,
   unpublished_category_not_found wDB "drafts" wCatHidden (by decide) (by decide)
     (by decide) (by decide) 10 (some 5) 1⟩

/-- C5: no post shown by the index or by a category page violates the
visibility condition, provided the class-level timestamp predates the
request and slugs identify categories uniquely. -/
theorem listings_respect_visibility (db : DB) (loadTime now : Int)
    (slug : String) (requester : Option Nat) (page : Nat)
    (hload : loadTime ≤ now) (huniq : slugUnique db) :
    (∀ pg, indexView db loadTime requester page = .ok pg →
      ∀ e ∈ pg, visibleAt db now e.post) ∧
    (∀ pg, categoryView db slug now requester page = .ok pg →
      ∀ e ∈ pg, visibleAt db now e.post) := by
  constructor
  · intro pg hpg e he
    simp only [indexView, ListResponse.ok.injEq] at hpg
    subst hpg
    have he2 := mem_of_mem_getPage he
    simp only [indexQueryset] at he2
    obtain ⟨q, hq, rfl⟩ := List.mem_map.mp he2
    rw [sortByPubDateDesc, List.mem_insertionSort, List.mem_filter] at hq
    have hcond := hq.2
    simp only [Bool.and_eq_true, decide_eq_true_eq] at hcond
    exact ⟨hcond.1.2, hcond.2, le_trans hcond.1.1 hload⟩
  · intro pg hpg e he
    rcases hfind : db.categories.find?
        (fun c => c.slug == slug && c.is_published) with _ | cat
    · rw [categoryView, hfind] at hpg
      exact absurd hpg (by simp)
    · rw [categoryView, hfind] at hpg
      simp only [ListResponse.ok.injEq] at hpg
      subst hpg
      have he2 := mem_of_mem_getPage he
      simp only [categoryQueryset] at he2
      obtain ⟨q, hq, rfl⟩ := List.mem_map.mp he2
      rw [sortByPubDateDesc, List.mem_insertionSort, List.mem_filter] at hq
      have hcond := hq.2
      simp only [Bool.and_eq_true, decide_eq_true_eq] at hcond
      exact ⟨hcond.1.2,
        categoryIsPublished_of_slug db q slug cat hfind huniq hcond.1.1, hcond.2⟩

/-- Witness for C5 at the concrete database, class-load time 2, request
moment 10. -/
theorem listings_respect_visibility_witness :
    (2 : Int) ≤ 10 ∧ slugUnique wDB ∧
    ((∀ pg, indexView wDB 2 none 1 = .ok pg →
      ∀ e ∈ pg, visibleAt wDB 10 e.post) ∧
    (∀ pg, categoryView wDB "news" 10 none 1 = .ok pg →
      ∀ e ∈ pg, visibleAt wDB 10 e.post)) :=
  ⟨by decide, by decide,
   listings_respect_visibility wDB 2 10 "news" none 1 (by decide) (by decide)⟩

/-- C6 counterexample: on the concrete database the category listing's
entry for post 1 carries no comment count, though the post has one
comment. -/
theorem category_annotation_counterexample :
    ¬ (∀ e ∈ categoryQueryset wDB "news" 10,
        e.comment_count = some (commentCount wDB e.post)) := by
  decide

/-- C6 (amended): every listing is sorted by publication date descending;
the index and profile listings annotate each post with its comment count,
but the category listing carries no comment-count annotation. -/
theorem listing_order_and_annotation (db : DB) (loadTime now : Int)
    (slug : String) (userId : Nat) :
    sortedDesc (indexQueryset db loadTime) ∧
    (∀ e ∈ indexQueryset db loadTime,
      e.comment_count = some (commentCount db e.post)) ∧
    sortedDesc (profilePostList db userId) ∧
    (∀ e ∈ profilePostList db userId,
      e.comment_count = some (commentCount db e.post)) ∧
    sortedDesc (categoryQueryset db slug now) ∧
    (∀ e ∈ categoryQueryset db slug now, e.comment_count = none) := by
  refine ⟨?_, ?_, ?_, ?_, ?_, ?_⟩
  · exact sortedDesc_map_sort _ (fun p => rfl) _
  · intro e he
    obtain ⟨q, _, rfl⟩ := List.mem_map.mp he
    rfl
  · exact sortedDesc_map_sort _ (fun p => rfl) _
  · intro e he
    obtain ⟨q, _, rfl⟩ := List.mem_map.mp he
    rfl
  · exact sortedDesc_map_sort _ (fun p => rfl) _
  · intro e he
    obtain ⟨q, _, rfl⟩ := List.mem_map.mp he
    rfl

/-- C7: every page of each listing holds at most `POSTS_PER_PAGE` items,
and the pages together hold exactly the filtered queryset. -/
theorem pagination_bounds (db : DB) (loadTime now : Int) (slug : String)
    (userId : Nat) (page : Nat) :
    (getPage (indexQueryset db loadTime) page).length ≤ POSTS_PER_PAGE ∧
    pagesTotal (indexQueryset db loadTime) = (indexQueryset db loadTime).length ∧
    (getPage (categoryQueryset db slug now) page).length ≤ POSTS_PER_PAGE ∧
    pagesTotal (categoryQueryset db slug now)
      = (categoryQueryset db slug now).length ∧
    (getPage (profilePostList db userId) page).length ≤ POSTS_PER_PAGE ∧
    pagesTotal (profilePostList db userId) = (profilePostList db userId).length :=
  ⟨getPage_length_le _ _, pagesTotal_eq _, getPage_length_le _ _, pagesTotal_eq _,
   getPage_length_le _ _, pagesTotal_eq _⟩

end Blogicum
